import Mathlib

/-!
Shallow embedding of the epaper-metar repository (files metar_main.py and
metar_layouts.py) and proofs about its layout-selection policy, wind-arrow
geometry, runway markings and sleep-interval selection.

External collaborators (PIL drawing backend, fonts, the waveshare display
driver, the network fetch and the METAR decoding routines of
metar_routines.py) are out of scope per the specification; the embedding
takes their outputs as parameters (decoded field strings, font metrics,
trigonometric values) and records the drawing calls the layout code makes
as a list of drawing operations.
-/

namespace EpaperMetar

/-- Grayscale palette codes of the external display driver: the source
refers to them as epd.GRAY1 .. epd.GRAY4 and binds white, light_gray,
dark_gray, black to them in layout_wind. They are modelled as abstract
numeric codes 1..4. -/
def GRAY1 : Nat := 1

def GRAY2 : Nat := 2

def GRAY3 : Nat := 3

def GRAY4 : Nat := 4

/-- One drawing call made against the PIL draw context. Coordinates in the
source are Python ints at every draw call site (floats are truncated with
int() before drawing), so they are modelled as Int. Fonts are external and
not recorded. -/
inductive DrawOp where
  | rect (x0 y0 x1 y1 : Int) (fill : Nat)
  | text (x y : Int) (s : String) (fill : Nat)
  | line (x0 y0 x1 y1 : Int) (fill : Nat) (width : Nat)
  | polygon (pts : List (Int × Int)) (fill : Nat)
  deriving DecidableEq

/-- Python int() applied to a string of decimal digits: base-10 value of
the digit list. -/
def digits_to_nat (l : List Char) : Nat :=
  l.foldl (fun acc c => acc * 10 + (c.toNat - 48)) 0

/-- Embedding of metar_layouts.py line 158: wind_direction is int(decoded_wndir)
when the string is nonempty and all digits (str.isdigit), else 0 (the except
branch also yields 0). Python int of a digit string is a nonnegative
integer. -/
def parse_wind_direction (s : String) : Nat :=
  if s ≠ "" ∧ s.data.all Char.isDigit then digits_to_nat s.data else 0

/-- Embedding of metar_layouts.py line 160: wind_speed is float(decoded_wnspd)
when the string is nonempty and not "Calm", else 0; a parse failure falls to
the except branch and yields 0. METAR speed strings are nonnegative integer
literals, modelled by the digit parse; any other string yields 0. -/
def parse_wind_speed (s : String) : ℚ :=
  if s ≠ "" ∧ s ≠ "Calm" then
    if s.data.all Char.isDigit ∧ s.data ≠ [] then (digits_to_nat s.data : ℚ)
    else 0
  else 0

/-- Embedding of the first normalization loop of metar_layouts.py line 219:
while relative_angle_deg > 180, subtract 360. -/
def norm_sub (a : Int) : Int :=
  if a > 180 then norm_sub (a - 360) else a
termination_by (a - 180).toNat
decreasing_by omega

/-- Embedding of the second normalization loop of metar_layouts.py line 220:
while relative_angle_deg <= -180, add 360. -/
def norm_add (a : Int) : Int :=
  if a ≤ -180 then norm_add (a + 360) else a
termination_by (-179 - a).toNat
decreasing_by omega

/-- Embedding of metar_layouts.py lines 218-220: relative angle is wind
direction minus runway heading, passed through the two while loops. -/
def relative_angle (wind_direction runway_heading : Int) : Int :=
  norm_add (norm_sub (wind_direction - runway_heading))

theorem norm_sub_le (a : Int) : norm_sub a ≤ 180 := by
  rw [norm_sub]
  split
  · exact norm_sub_le (a - 360)
  · omega
termination_by (a - 180).toNat
decreasing_by omega

theorem norm_sub_gt (a : Int) (h : a > -180) : norm_sub a > -180 := by
  rw [norm_sub]
  split
  · exact norm_sub_gt (a - 360) (by omega)
  · omega
termination_by (a - 180).toNat
decreasing_by omega

theorem norm_add_gt (a : Int) : norm_add a > -180 := by
  rw [norm_add]
  split
  · exact norm_add_gt (a + 360)
  · omega
termination_by (-179 - a).toNat
decreasing_by omega

theorem norm_add_le (a : Int) (h : a ≤ 180) : norm_add a ≤ 180 := by
  rw [norm_add]
  split
  · exact norm_add_le (a + 360) (by omega)
  · omega
termination_by (-179 - a).toNat
decreasing_by omega

/-- C1: for every integer wind direction, the relative angle against runway
heading 180, after the subtract-360 loop and then the add-360 loop, lies in
the half-open interval (-180, 180]. -/
theorem relative_angle_in_range (wd : Int) :
    -180 < relative_angle wd 180 ∧ relative_angle wd 180 ≤ 180 := by
  constructor
  · exact norm_add_gt (norm_sub (wd - 180))
  · exact norm_add_le (norm_sub (wd - 180)) (norm_sub_le (wd - 180))

/-! ## LayoutSelector: cycle_layout and random_layout (metar_layouts.py lines 45-87) -/

/-- Python modulus: a % b raises ZeroDivisionError when b is zero. -/
def pymod (a b : Nat) : Except String Nat :=
  if b = 0 then .error "ZeroDivisionError" else .ok (a % b)

/-- Python int(a) applied to a single character, as in the comprehension at
metar_layouts.py line 49: a decimal digit yields its value, any other
character raises ValueError. -/
def int_of_char (c : Char) : Except String Nat :=
  if c.isDigit then .ok (c.toNat - 48) else .error "ValueError"

/-- Embedding of metar_layouts.py line 49: the preferred-layouts setting is
converted character by character, int(a) for a in str(preferred_layouts). -/
def parse_preferred_list (s : String) : Except String (List Nat) :=
  s.data.mapM int_of_char

/-- The two process-wide counters of metar_layouts.py lines 22-23. -/
structure CycleState where
  cycle_num : Nat
  pref_cycle : Nat
  deriving DecidableEq

/-- Embedding of cycle_layout (metar_layouts.py lines 45-75). The routine
list is represented by its length num_layouts; the result is the index of
the invoked routine (none when the call returns without invoking one)
together with the updated counters. Exceptions escaping the function are
modelled by Except.error. -/
def cycle_layout_model (use_preferred : Nat) (preferred_layouts : String)
    (num_layouts : Nat) (st : CycleState) :
    Except String (Option Nat × CycleState) :=
  if use_preferred = 1 then do
    let p_layouts_lst ← parse_preferred_list preferred_layouts
    if p_layouts_lst = [] then
      return (none, st)
    else do
      let current_pref_index ← pymod st.pref_cycle p_layouts_lst.length
      let layout_index_to_use := p_layouts_lst.getD current_pref_index 0
      if layout_index_to_use < num_layouts then
        return (some layout_index_to_use,
                { st with pref_cycle := st.pref_cycle + 1 })
      else
        return (none, st)
  else do
    let current_cycle_index ← pymod st.cycle_num num_layouts
    return (some current_cycle_index,
            { st with cycle_num := st.cycle_num + 1 })

/-- Embedding of random_layout (metar_layouts.py lines 79-87): an empty list
returns without drawing; otherwise random.choice picks an element, the
external randomness being supplied as the index pick. -/
def random_layout_model (num_layouts : Nat) (pick : Nat) : Option Nat :=
  if num_layouts = 0 then none else some (pick % num_layouts)

/-- State of the cycle-all counter after k calls of cycle_layout in
cycle-all mode, starting from counters (0, 0). A call that raises leaves
the state unchanged. -/
def cycle_all_state (num_layouts : Nat) : Nat → CycleState
  | 0 => ⟨0, 0⟩
  | k + 1 =>
    match cycle_layout_model 0 "" num_layouts (cycle_all_state num_layouts k) with
    | .ok (_, st) => st
    | .error _ => cycle_all_state num_layouts k

/-- The routine index invoked by the k-th cycle-all call (0-indexed). -/
def cycle_all_invoked (num_layouts k : Nat) : Except String (Option Nat) :=
  (cycle_layout_model 0 "" num_layouts (cycle_all_state num_layouts k)).map
    Prod.fst

/-! ## Sleep-interval selection (metar_main.py lines 232-251) -/

/-- Embedding of the sleep-interval computation of the main loop: a nonzero
interval override is used as is, otherwise the duration is chosen by flight
category with 1800 as the default for an unknown category. -/
def sleep_interval_of (interval : Int) (flightcategory : String) : Int :=
  if interval ≠ 0 then interval
  else if flightcategory = "VFR" then 3600
  else if flightcategory = "MVFR" then 1800
  else if flightcategory = "IFR" then 1200
  else if flightcategory = "LIFR" then 600
  else 1800

deriving instance DecidableEq for Except

theorem cycle_all_step (M : Nat) (h : M ≠ 0) (st : CycleState) :
    cycle_layout_model 0 "" M st =
      .ok (some (st.cycle_num % M), ⟨st.cycle_num + 1, st.pref_cycle⟩) := by
  simp [cycle_layout_model, pymod, h]

theorem cycle_all_state_eq (M k : Nat) (h : M ≠ 0) :
    cycle_all_state M k = ⟨k, 0⟩ := by
  induction k with
  | zero => rfl
  | succ k ih =>
    rw [cycle_all_state, ih, cycle_all_step M h]

/-- C5: in cycle-all mode with M routines and counters starting at (0, 0),
the k-th call (0-indexed) invokes routine index k mod M and increments the
counter by one, never skipping an index. -/
theorem cycle_all_kth_call (M k : Nat) (h : 0 < M) :
    cycle_all_state M k = ⟨k, 0⟩ ∧
    cycle_all_invoked M k = .ok (some (k % M)) ∧
    cycle_all_state M (k + 1) = ⟨k + 1, 0⟩ := by
  have hM : M ≠ 0 := Nat.pos_iff_ne_zero.mp h
  refine ⟨cycle_all_state_eq M k hM, ?_, cycle_all_state_eq M (k + 1) hM⟩
  rw [cycle_all_invoked, cycle_all_state_eq M k hM, cycle_all_step M hM]
  rfl

/-- Closed instance of C5 at M = 3, k = 4. -/
theorem cycle_all_kth_call_witness :
    cycle_all_state 3 4 = ⟨4, 0⟩ ∧
    cycle_all_invoked 3 4 = .ok (some (4 % 3)) ∧
    cycle_all_state 3 5 = ⟨5, 0⟩ :=
  cycle_all_kth_call 3 4 (by decide)

/-- C3 (amended): in cycle-preferred mode with a parsed non-empty preferred
list, the call selects index preferred[pref_cycle mod length]; an in-range
index is invoked and the preferred counter increments by one, an
out-of-range index skips drawing without raising and leaves the counter
unchanged; with preferred string "20" (list [2, 0]) and 3 routines, the
calls with counters 0, 1, 2, 3 select routine indices 2, 0, 2, 0. -/
theorem cycle_preferred_spec (s : String) (M : Nat) (st : CycleState)
    (lst : List Nat) (hp : parse_preferred_list s = .ok lst)
    (hne : lst ≠ []) :
    (cycle_layout_model 1 s M st =
      if lst.getD (st.pref_cycle % lst.length) 0 < M then
        .ok (some (lst.getD (st.pref_cycle % lst.length) 0),
             ⟨st.cycle_num, st.pref_cycle + 1⟩)
      else .ok (none, st)) ∧
    cycle_layout_model 1 "20" 3 ⟨0, 0⟩ = .ok (some 2, ⟨0, 1⟩) ∧
    cycle_layout_model 1 "20" 3 ⟨0, 1⟩ = .ok (some 0, ⟨0, 2⟩) ∧
    cycle_layout_model 1 "20" 3 ⟨0, 2⟩ = .ok (some 2, ⟨0, 3⟩) ∧
    cycle_layout_model 1 "20" 3 ⟨0, 3⟩ = .ok (some 0, ⟨0, 4⟩) := by
  refine ⟨?_, rfl, rfl, rfl, rfl⟩
  have hlen : lst.length ≠ 0 := fun h0 => hne (List.length_eq_zero.mp h0)
  simp only [cycle_layout_model, hp, pymod, hlen, if_true, if_false]
  simp only [hne, if_false, ite_false, Except.bind, bind, pure, List.getD]
  split
  · rename_i err heq
    simp [hlen] at heq
  · rename_i v heq
    simp [hlen] at heq
    subst heq
    rfl

/-- Closed instance of C3 at preferred string "20", M = 3, counters (0, 0). -/
theorem cycle_preferred_spec_witness :
    (cycle_layout_model 1 "20" 3 ⟨0, 0⟩ =
      if [2, 0].getD (0 % [2, 0].length) 0 < 3 then
        .ok (some ([2, 0].getD (0 % [2, 0].length) 0),
             ⟨0, 0 + 1⟩)
      else .ok (none, ⟨0, 0⟩)) ∧
    cycle_layout_model 1 "20" 3 ⟨0, 0⟩ = .ok (some 2, ⟨0, 1⟩) ∧
    cycle_layout_model 1 "20" 3 ⟨0, 1⟩ = .ok (some 0, ⟨0, 2⟩) ∧
    cycle_layout_model 1 "20" 3 ⟨0, 2⟩ = .ok (some 2, ⟨0, 3⟩) ∧
    cycle_layout_model 1 "20" 3 ⟨0, 3⟩ = .ok (some 0, ⟨0, 4⟩) :=
  cycle_preferred_spec "20" 3 ⟨0, 0⟩ [2, 0] (by decide) (by decide)

/-- C3 counterexample: with preferred string "5" (a single out-of-range
index against 3 routines) and counters (0, 0), the call skips drawing and
leaves the preferred counter at 0, not 1, so the counter is not incremented
on every call as the claim states. -/
theorem cycle_preferred_no_increment :
    cycle_layout_model 1 "5" 3 ⟨0, 0⟩ = .ok (none, ⟨0, 0⟩) ∧
    cycle_layout_model 1 "5" 3 ⟨0, 0⟩ ≠ .ok (none, ⟨0, 0 + 1⟩) := by
  exact ⟨rfl, by decide⟩

/-- C9: in cycle-all mode an empty routine list makes cycle_layout raise
ZeroDivisionError from the unguarded modulus, while random_layout with an
empty list returns without drawing and without raising. -/
theorem empty_layout_list_behavior (st : CycleState) (pick : Nat) :
    cycle_layout_model 0 "" 0 st = .error "ZeroDivisionError" ∧
    random_layout_model 0 pick = none := by
  exact ⟨by simp [cycle_layout_model, pymod], rfl⟩

theorem int_of_char_le_nine (c : Char) (x : Nat) (h : int_of_char c = .ok x) :
    x ≤ 9 := by
  rw [int_of_char] at h
  split at h
  · rename_i hd
    cases h
    rw [Char.isDigit] at hd
    rcases Bool.and_eq_true_iff.mp hd with ⟨h1, h2⟩
    have h2b : c.val ≤ 57 := of_decide_eq_true h2
    have h3 := UInt32.toNat_le_of_le (by decide) h2b
    have h4 : c.toNat ≤ 57 := by simpa [Char.toNat] using h3
    omega
  · cases h

theorem parse_preferred_all_le_nine (l : List Char) (lst : List Nat)
    (h : l.mapM int_of_char = .ok lst) : ∀ x ∈ lst, x ≤ 9 := by
  induction l generalizing lst with
  | nil =>
    simp only [List.mapM_nil, pure] at h
    cases h
    simp
  | cons c cs ih =>
    rw [List.mapM_cons] at h
    cases hc : int_of_char c with
    | error e => rw [hc] at h; cases h
    | ok v =>
      rw [hc] at h
      cases hcs : cs.mapM int_of_char with
      | error e =>
        rw [hcs] at h
        cases h
      | ok vs =>
        rw [hcs] at h
        simp only [Except.bind, pure] at h
        cases h
        intro x hx
        rcases List.mem_cons.mp hx with hx | hx
        · subst hx; exact int_of_char_le_nine c x hc
        · exact ih vs hcs x hx

/-- C10: every preferred index the configuration string can represent is a
single decimal digit (value at most 9), and a non-digit character such as a
comma separator makes cycle_layout raise ValueError. -/
theorem preferred_layouts_digit_parse (s : String) (lst : List Nat)
    (h : parse_preferred_list s = .ok lst) :
    (∀ x ∈ lst, x ≤ 9) ∧
    cycle_layout_model 1 "2,0" 3 ⟨0, 0⟩ = .error "ValueError" :=
  ⟨parse_preferred_all_le_nine s.data lst h, rfl⟩

/-- Closed instance of C10 at the string "20". -/
theorem preferred_layouts_digit_parse_witness :
    (∀ x ∈ [2, 0], x ≤ 9) ∧
    cycle_layout_model 1 "2,0" 3 ⟨0, 0⟩ = .error "ValueError" :=
  preferred_layouts_digit_parse "20" [2, 0] (by decide)

/-- C6: a nonzero interval override is used directly as the sleep duration;
with override 0 the duration is 3600 for VFR, 1800 for MVFR, 1200 for IFR,
600 for LIFR and 1800 for any other category; override 45 yields exactly
45 seconds. -/
theorem sleep_interval_spec (interval : Int) (fc : String) :
    (interval ≠ 0 → sleep_interval_of interval fc = interval) ∧
    sleep_interval_of 0 "VFR" = 3600 ∧
    sleep_interval_of 0 "MVFR" = 1800 ∧
    sleep_interval_of 0 "IFR" = 1200 ∧
    sleep_interval_of 0 "LIFR" = 600 ∧
    (fc ≠ "VFR" → fc ≠ "MVFR" → fc ≠ "IFR" → fc ≠ "LIFR" →
      sleep_interval_of 0 fc = 1800) ∧
    sleep_interval_of 45 fc = 45 := by
  refine ⟨?_, rfl, rfl, rfl, rfl, ?_, ?_⟩
  · intro h
    simp [sleep_interval_of, h]
  · intro h1 h2 h3 h4
    simp [sleep_interval_of, h1, h2, h3, h4]
  · simp [sleep_interval_of]

/-- Closed instance of C6 at override 45 and categories IFR and N/A. -/
theorem sleep_interval_spec_witness :
    sleep_interval_of 45 "IFR" = 45 ∧
    sleep_interval_of 0 "IFR" = 1200 ∧
    sleep_interval_of 0 "N/A" = 1800 :=
  ⟨(sleep_interval_spec 45 "IFR").1 (by decide),
   (sleep_interval_spec 45 "IFR").2.2.2.1,
   (sleep_interval_spec 0 "N/A").2.2.2.2.2.1
     (by decide) (by decide) (by decide) (by decide)⟩

/-! ## WindVisualization: layout_wind (metar_layouts.py lines 92-331)

The drawing calls of layout_wind are recorded in source order as a list of
DrawOp. The METAR decoding, the font engine and the trigonometric library
are external collaborators: decoded field strings, text measurements and
the cosine and sine of the relative angle are taken as parameters. -/

/-- The fixed runway of the layout (metar_layouts.py line 130). -/
def runway_number : Int := 18

/-- Python float-to-int conversion int(x): truncation toward zero. -/
def pytrunc (q : ℚ) : Int := if 0 ≤ q then q.floor else q.ceil

/-- Python round(x) with one argument: round half to even. -/
def pyround (q : ℚ) : Int :=
  let f := q.floor
  let r := q - (f : ℚ)
  if r < 1 / 2 then f
  else if 1 / 2 < r then f + 1
  else if f % 2 = 0 then f else f + 1

/-- Python str.zfill: left-pad with zeros up to the target width (the
padded strings here are digit strings, so no sign handling is needed). -/
def py_zfill (s : String) (w : Nat) : String :=
  String.mk (List.replicate (w - s.length) '0') ++ s

/-- External trigonometry: math.cos and math.sin applied to
math.radians of the integer relative angle, supplied as an oracle since
floating point is out of scope. -/
structure Trig where
  cosDeg : Int → ℚ
  sinDeg : Int → ℚ

/-- Text measurements returned by the external font engine (draw.textbbox
or draw.textsize): width and height of the flight-category text, the
runway-number text and the footer update line. -/
structure FontMetrics where
  fc_w : Int
  fc_h : Int
  rn_w : Int
  rn_h : Int
  up_w : Int
  up_h : Int
  deriving DecidableEq

/-- Decoded METAR fields and display parameters reaching the drawing code
of layout_wind; the decoding itself (metar_routines.py) is external. W and
H are epd.width and epd.height of the external display driver. -/
structure LayoutInput where
  W : Int
  H : Int
  airport : String
  flightcategory : String
  decoded_wndir : String
  decoded_wnspd : String
  descript : String
  cctype_lst : List String
  ccheight_lst : List String
  dis_unit : String
  vis : String
  vis_unit : String
  tempf : String
  temp_unit : String
  wind_speed_units : Int
  update_text : String
  deriving DecidableEq

/-- True exactly for the rectangle drawing operation. -/
def isRectOp : DrawOp → Bool
  | DrawOp.rect _ _ _ _ _ => true
  | _ => false

/-- True exactly for the polygon drawing operation. -/
def isPolygonOp : DrawOp → Bool
  | DrawOp.polygon _ _ => true
  | _ => false

/-- Embedding of the flight-category badge (metar_layouts.py lines
147-155): VFR and MVFR are drawn as plain white text; any other nonempty
category that is not "N/A" gets a white filled box behind black text; an
empty or "N/A" category is drawn as plain white "N/A" text. -/
def badge_ops (flightcategory : String) (fc_x fc_y fc_w fc_h : Int) :
    List DrawOp :=
  if flightcategory ≠ "" ∧ flightcategory ≠ "N/A" then
    if flightcategory = "VFR" ∨ flightcategory = "MVFR" then
      [DrawOp.text fc_x fc_y flightcategory GRAY1]
    else
      [DrawOp.rect (fc_x - 5) (fc_y - 5) (fc_x + fc_w + 5) (fc_y + fc_h + 5)
         GRAY1,
       DrawOp.text fc_x fc_y flightcategory GRAY4]
  else [DrawOp.text fc_x fc_y "N/A" GRAY1]

/-- Embedding of the header block (metar_layouts.py lines 143-155): black
band, airport identifier truncated to 10 characters, then the badge at
x = SCREEN_WIDTH - 75, y = 15. -/
def header_ops (inp : LayoutInput) (fm : FontMetrics) : List DrawOp :=
  [DrawOp.rect 0 0 inp.W 65 GRAY4,
   DrawOp.text 10 10 (inp.airport.take 10) GRAY1]
  ++ badge_ops inp.flightcategory (inp.W - 75) 15 fm.fc_w fm.fc_h

/-- Embedding of the wind info line (metar_layouts.py lines 157-166). The
unit label starts as "kts", becomes "mph" for units 1 and "kts" again for
units 2. -/
def wind_info_ops (inp : LayoutInput) : List DrawOp :=
  let wind_direction := parse_wind_direction inp.decoded_wndir
  let wind_speed := parse_wind_speed inp.decoded_wnspd
  let ws_unit_label := if inp.wind_speed_units = 1 then "mph" else "kts"
  [DrawOp.text 10 85
    ("Wind: " ++ py_zfill (toString wind_direction) 3 ++ "° at " ++
      toString (pyround wind_speed) ++ " " ++ ws_unit_label) GRAY4]

/-- One cloud line of the left column (metar_layouts.py lines 184-188).
The source indexes the two parallel lists from get_clouds; a height string
that is not all digits is shown as "N/A". -/
def cloud_entry_text (inp : LayoutInput) (i : Nat) : String :=
  let cctype := inp.cctype_lst.getD i ""
  let ccheight := inp.ccheight_lst.getD i ""
  let height_str :=
    if ccheight ≠ "" ∧ ccheight.data.all Char.isDigit then ccheight
    else "N/A"
  cctype ++ " " ++ height_str ++ inp.dis_unit

/-- Embedding of the left column (metar_layouts.py lines 168-195): weather
description with one wraparound line, up to two cloud layers or "Clear",
then visibility, at y positions 125, 180, 235 with the reduced spacing
of 55. -/
def left_column_ops (inp : LayoutInput) : List DrawOp :=
  [DrawOp.text 10 125 "Weather:" GRAY4,
   DrawOp.text 15 145 (inp.descript.take 25) GRAY4]
  ++ (if 25 < inp.descript.length then
        [DrawOp.text 15 165 ((inp.descript.drop 25).take 25) GRAY4]
      else [])
  ++ [DrawOp.text 10 180 "Clouds:" GRAY4]
  ++ (if inp.cctype_lst ≠ [] then
        (List.range (min 2 inp.cctype_lst.length)).map
          (fun i => DrawOp.text 15 (200 + 20 * Int.ofNat i)
            (cloud_entry_text inp i) GRAY4)
      else [DrawOp.text 15 200 "Clear" GRAY4])
  ++ [DrawOp.text 10 235 "Visibility:" GRAY4,
      DrawOp.text 15 255 (inp.vis ++ inp.vis_unit) GRAY4]

/-- Embedding of the right column (metar_layouts.py lines 198-203). -/
def right_column_ops (inp : LayoutInput) : List DrawOp :=
  [DrawOp.text (inp.W - 100) 125 "Temp:" GRAY4,
   DrawOp.text (inp.W - 95) 145 (inp.tempf ++ inp.temp_unit) GRAY4]

/-- Embedding of metar_layouts.py lines 235-238: the taper used for the
arrow shaft, guarding a zero near width by falling back to ratio 1. -/
def runway_taper_of (runway_width_near runway_width_far : ℚ) : ℚ :=
  if runway_width_near ≠ 0 then runway_width_far / runway_width_near else 1

/-- Embedding of metar_layouts.py line 241: the far shaft width scales the
near width by the runway taper. -/
def arrow_shaft_width_far_of
    (runway_width_near runway_width_far arrow_shaft_width_near : ℚ) : ℚ :=
  arrow_shaft_width_near * runway_taper_of runway_width_near runway_width_far

/-- Embedding of metar_layouts.py line 244: near half width of the shaft. -/
def near_half_w_of (arrow_shaft_width_near : ℚ) : ℚ :=
  arrow_shaft_width_near / 2

/-- Embedding of metar_layouts.py line 245: far half width of the shaft. -/
def far_half_w_of
    (runway_width_near runway_width_far arrow_shaft_width_near : ℚ) : ℚ :=
  arrow_shaft_width_far_of runway_width_near runway_width_far
    arrow_shaft_width_near / 2

/-- Embedding of the rotate helper (metar_layouts.py lines 266-268): rotate
a point by the relative angle and translate to the arrow center, Python
int() truncating toward zero. -/
def rotate_pt (t : Trig) (angle cx cy : Int) (x y : ℚ) : Int × Int :=
  let c := t.cosDeg angle
  let s := t.sinDeg angle
  (pytrunc ((cx : ℚ) + (x * c - y * s)),
   pytrunc ((cy : ℚ) + (x * s + y * c)))

/-- Embedding of the wind-arrow block (metar_layouts.py lines 216-286),
guarded by wind_speed > 0: the tapered shaft trapezoid then the triangular
head, both dark gray, built with runway widths 85 and 50 and near shaft
width 14 and rotated by the relative angle against runway heading
runway_number times 10. -/
def arrow_ops (t : Trig) (wind_direction : Int) (wind_speed : ℚ)
    (centerX centerY : Int) : List DrawOp :=
  if 0 < wind_speed then
    let rel := relative_angle wind_direction (runway_number * 10)
    let arrow_length : ℚ := 35
    let arrow_head_length : ℚ := 18
    let shaft_len := arrow_length - arrow_head_length
    let near_half_w := near_half_w_of 14
    let far_half_w := far_half_w_of 85 50 14
    let arrow_head_width : ℚ := 25
    let acx := centerX
    let acy := centerY - 25
    let shaft_half_l := shaft_len / 2
    let rp1 := rotate_pt t rel acx acy (-far_half_w) (-shaft_half_l)
    let rp2 := rotate_pt t rel acx acy far_half_w (-shaft_half_l)
    let rp3 := rotate_pt t rel acx acy near_half_w shaft_half_l
    let rp4 := rotate_pt t rel acx acy (-near_half_w) shaft_half_l
    let head_base_y := shaft_half_l
    let head_tip_y := head_base_y + arrow_head_length
    let head_half_w := arrow_head_width / 2
    let rhp1 := rotate_pt t rel acx acy 0 head_tip_y
    let rhp2 := rotate_pt t rel acx acy (-head_half_w) head_base_y
    let rhp3 := rotate_pt t rel acx acy head_half_w head_base_y
    [DrawOp.polygon [rp1, rp2, rp3, rp4] GRAY3,
     DrawOp.polygon [rhp1, rhp2, rhp3] GRAY3]
  else []

/-- Embedding of the runway trapezoid (metar_layouts.py lines 289-295),
with the redefined constants of line 290 (near 85, far 50, length 55) and
base y = VISUALIZATION_Y + 35. -/
def runway_polygon_op (centerX : Int) : DrawOp :=
  let runway_base_y : Int := 170 + 35
  let runway_width_near : Int := 85
  let runway_width_far : Int := 50
  let runway_length : Int := 55
  DrawOp.polygon
    [(centerX - runway_width_near / 2, runway_base_y + runway_length / 2),
     (centerX - runway_width_far / 2, runway_base_y - runway_length / 2),
     (centerX + runway_width_far / 2, runway_base_y - runway_length / 2),
     (centerX + runway_width_near / 2, runway_base_y + runway_length / 2)]
    GRAY4

/-- Embedding of the dashed-centerline loop (metar_layouts.py lines
297-301): while current_y < y_start + 16, draw a dash of length 6 clipped
at y_end and advance by dash plus gap (10). The loop advances by 10 each
iteration, so a fuel of 16 always covers the bound of 16. -/
def dash_loop (centerX y_end stop current_y : Int) : Nat → List DrawOp
  | 0 => []
  | fuel + 1 =>
    if current_y < stop then
      DrawOp.line centerX current_y centerX (min (current_y + 6) y_end)
        GRAY1 2 :: dash_loop centerX y_end stop (current_y + 10) fuel
    else []

/-- The dashed centerline of the runway: two dash segments starting at
y_start = runway_base_y - runway_length // 2 + gap. -/
def centerline_ops (centerX : Int) : List DrawOp :=
  let runway_base_y : Int := 170 + 35
  let runway_length : Int := 55
  let y_start := runway_base_y - runway_length / 2 + 4
  let y_end := runway_base_y + runway_length / 2 - 4
  dash_loop centerX y_end (y_start + 16) y_start 16

/-- Embedding of the runway number text (metar_layouts.py lines 304-319):
str(runway_number).zfill(2), centered with the measured width, with the
fixed vertical adjustment of -13. -/
def runway_number_ops (centerX : Int) (fm : FontMetrics) : List DrawOp :=
  let runway_base_y : Int := 170 + 35
  let runway_length : Int := 55
  let rn_x_orig := centerX - fm.rn_w / 2
  let rn_y_orig := runway_base_y + runway_length / 2 - fm.rn_h - 6
  [DrawOp.text rn_x_orig (rn_y_orig - 13) (py_zfill (toString runway_number) 2)
    GRAY1]

/-- The eight threshold tick offsets of metar_layouts.py line 324. -/
def tick_offsets : List Int := [-25, -18, -11, -4, 4, 11, 18, 25]

/-- Embedding of the threshold markings loop (metar_layouts.py lines
321-325): one vertical tick per offset between marker_y1 and marker_y2. -/
def tick_ops (centerX : Int) : List DrawOp :=
  let runway_base_y : Int := 170 + 35
  let runway_length : Int := 55
  let marker_y1 := runway_base_y + runway_length / 2 - 5
  let marker_y2 := runway_base_y + runway_length / 2
  tick_offsets.map (fun x_offset =>
    DrawOp.line (centerX + x_offset) marker_y1 (centerX + x_offset)
      marker_y2 GRAY1 1)

/-- Embedding of the footer (metar_layouts.py lines 327-331): the update
line near the bottom edge, its height measured by the font engine. -/
def footer_ops (inp : LayoutInput) (fm : FontMetrics) : List DrawOp :=
  [DrawOp.text 10 (inp.H - fm.up_h - 5) inp.update_text GRAY4]

/-- The full drawing sequence of layout_wind from the decoded fields on
(metar_layouts.py lines 142-331), in source order: header, wind info, left
and right columns, then the wind arrow, the runway, the dashed centerline,
the runway number, the threshold ticks and the footer. -/
def layout_wind_ops (inp : LayoutInput) (fm : FontMetrics) (t : Trig) :
    List DrawOp :=
  let centerX := inp.W / 2
  let centerY : Int := 170
  header_ops inp fm
  ++ wind_info_ops inp
  ++ left_column_ops inp
  ++ right_column_ops inp
  ++ arrow_ops t (parse_wind_direction inp.decoded_wndir)
       (parse_wind_speed inp.decoded_wnspd) centerX centerY
  ++ [runway_polygon_op centerX]
  ++ centerline_ops centerX
  ++ runway_number_ops centerX fm
  ++ tick_ops centerX
  ++ footer_ops inp fm

/-- A concrete decoded input: 400 x 300 display, VFR, wind 270 at 10. -/
def sample_input : LayoutInput :=
  ⟨400, 300, "KPDX", "VFR", "270", "10", "", [], [], "", "", "", "", "", 2,
   ""⟩

/-- The sample input with calm wind (decoded speed string "0"). -/
def calm_input : LayoutInput :=
  ⟨400, 300, "KPDX", "VFR", "270", "0", "", [], [], "", "", "", "", "", 2,
   ""⟩

/-- Concrete text measurements for witnesses. -/
def sample_metrics : FontMetrics := ⟨40, 20, 30, 30, 100, 16⟩

/-- A concrete trigonometric oracle for witnesses. -/
def zero_trig : Trig := ⟨fun _ => 0, fun _ => 0⟩

/-- C2: the arrow shaft far half-width equals the near half-width times
the ratio of the runway far width to its near width, and when the runway
near width is zero the far half-width equals the near half-width. -/
theorem arrow_taper_spec (near far w : ℚ) :
    (near ≠ 0 →
      far_half_w_of near far w = near_half_w_of w * (far / near)) ∧
    (near = 0 → far_half_w_of near far w = near_half_w_of w) := by
  constructor
  · intro h
    simp only [far_half_w_of, arrow_shaft_width_far_of, runway_taper_of,
      near_half_w_of, if_pos h]
    ring
  · intro h
    subst h
    simp [far_half_w_of, arrow_shaft_width_far_of, runway_taper_of,
      near_half_w_of]

/-- Closed instance of C2 at the source constants 85, 50, 14 and at near
width 0. -/
theorem arrow_taper_spec_witness :
    far_half_w_of 85 50 14 = near_half_w_of 14 * (50 / 85) ∧
    far_half_w_of 0 50 14 = near_half_w_of 14 :=
  ⟨(arrow_taper_spec 85 50 14).1 (by norm_num),
   (arrow_taper_spec 0 50 14).2 rfl⟩

/-- C8: on every render the dashed centerline consists of exactly two dash
segments, there are exactly 8 threshold tick marks, the tick offsets are
symmetric about the runway centerline, and all of these operations occur
in the rendered operation list. -/
theorem runway_markings_spec (inp : LayoutInput) (fm : FontMetrics)
    (t : Trig) :
    (centerline_ops (inp.W / 2)).length = 2 ∧
    (tick_ops (inp.W / 2)).length = 8 ∧
    (∀ o ∈ tick_offsets, -o ∈ tick_offsets) ∧
    (∀ op ∈ centerline_ops (inp.W / 2), op ∈ layout_wind_ops inp fm t) ∧
    (∀ op ∈ tick_ops (inp.W / 2), op ∈ layout_wind_ops inp fm t) := by
  refine ⟨?_, ?_, ?_, ?_, ?_⟩
  · simp [centerline_ops, dash_loop]
  · simp [tick_ops, tick_offsets]
  · decide
  · intro op hop
    simp only [layout_wind_ops, List.mem_append]
    tauto
  · intro op hop
    simp only [layout_wind_ops, List.mem_append]
    tauto

/-- Closed instance of C8 at the sample input. -/
theorem runway_markings_spec_witness :
    (centerline_ops (sample_input.W / 2)).length = 2 ∧
    (-25 : Int) ∈ tick_offsets ∧
    DrawOp.line (sample_input.W / 2) 182 (sample_input.W / 2) 188 GRAY1 2 ∈
      layout_wind_ops sample_input sample_metrics zero_trig :=
  ⟨(runway_markings_spec sample_input sample_metrics zero_trig).1,
   (runway_markings_spec sample_input sample_metrics zero_trig).2.2.1
     25 (by decide),
   (runway_markings_spec sample_input sample_metrics zero_trig).2.2.2.1
     _ (by decide)⟩

/-- C7 (amended): the badge is drawn with a filled box exactly when the
category is nonempty and none of "N/A", "VFR", "MVFR" (in particular for
IFR and LIFR); VFR and MVFR are plain text; the unknown sentinel "N/A"
and the empty category are drawn as plain "N/A" text, not boxed. -/
theorem badge_box_spec (fc : String) (x y w h : Int) :
    ((∃ op ∈ badge_ops fc x y w h, isRectOp op) ↔
      fc ≠ "" ∧ fc ≠ "N/A" ∧ fc ≠ "VFR" ∧ fc ≠ "MVFR") ∧
    badge_ops "VFR" x y w h = [DrawOp.text x y "VFR" GRAY1] ∧
    badge_ops "MVFR" x y w h = [DrawOp.text x y "MVFR" GRAY1] ∧
    badge_ops "IFR" x y w h =
      [DrawOp.rect (x - 5) (y - 5) (x + w + 5) (y + h + 5) GRAY1,
       DrawOp.text x y "IFR" GRAY4] ∧
    badge_ops "LIFR" x y w h =
      [DrawOp.rect (x - 5) (y - 5) (x + w + 5) (y + h + 5) GRAY1,
       DrawOp.text x y "LIFR" GRAY4] ∧
    badge_ops "N/A" x y w h = [DrawOp.text x y "N/A" GRAY1] ∧
    badge_ops "" x y w h = [DrawOp.text x y "N/A" GRAY1] := by
  refine ⟨?_, by simp [badge_ops], by simp [badge_ops], by simp [badge_ops],
    by simp [badge_ops], by simp [badge_ops], by simp [badge_ops]⟩
  unfold badge_ops
  split_ifs with h1 h2
  · constructor
    · rintro ⟨op, hop, hr⟩
      simp at hop
      subst hop
      simp [isRectOp] at hr
    · intro hrhs
      rcases h2 with rfl | rfl
      · exact absurd rfl hrhs.2.2.1
      · exact absurd rfl hrhs.2.2.2
  · constructor
    · intro _
      exact ⟨h1.1, h1.2, fun hv => h2 (Or.inl hv), fun hm => h2 (Or.inr hm)⟩
    · intro _
      exact ⟨DrawOp.rect (x - 5) (y - 5) (x + w + 5) (y + h + 5) GRAY1,
        by simp, rfl⟩
  · constructor
    · rintro ⟨op, hop, hr⟩
      simp at hop
      subst hop
      simp [isRectOp] at hr
    · intro hrhs
      exact absurd ⟨hrhs.1, hrhs.2.1⟩ h1

/-- Closed instance of C7: IFR gets a box, VFR is plain text. -/
theorem badge_box_spec_witness :
    (∃ op ∈ badge_ops "IFR" 325 15 40 20, isRectOp op) ∧
    badge_ops "VFR" 325 15 40 20 = [DrawOp.text 325 15 "VFR" GRAY1] :=
  ⟨(badge_box_spec "IFR" 325 15 40 20).1.mpr (by decide),
   (badge_box_spec "VFR" 325 15 40 20).2.1⟩

/-- C7 counterexample: the unknown-category sentinel "N/A" is rendered as
plain white text with no box, so the badge is not boxed for an unknown
category as the claim states. -/
theorem badge_unknown_not_boxed :
    badge_ops "N/A" 325 15 40 20 = [DrawOp.text 325 15 "N/A" GRAY1] ∧
    ¬ ∃ op ∈ badge_ops "N/A" 325 15 40 20, isRectOp op := by
  exact ⟨by decide, by decide⟩

theorem filter_poly_header (inp : LayoutInput) (fm : FontMetrics) :
    (header_ops inp fm).filter isPolygonOp = [] := by
  unfold header_ops badge_ops
  split_ifs <;> simp [isPolygonOp]

theorem filter_poly_wind_info (inp : LayoutInput) :
    (wind_info_ops inp).filter isPolygonOp = [] := by
  simp [wind_info_ops, isPolygonOp]

theorem filter_poly_left (inp : LayoutInput) :
    (left_column_ops inp).filter isPolygonOp = [] := by
  unfold left_column_ops
  split_ifs <;> simp [isPolygonOp, List.filter_map, Function.comp]

theorem filter_poly_right (inp : LayoutInput) :
    (right_column_ops inp).filter isPolygonOp = [] := by
  simp [right_column_ops, isPolygonOp]

theorem filter_poly_centerline (cX : Int) :
    (centerline_ops cX).filter isPolygonOp = [] := by
  simp [centerline_ops, dash_loop, isPolygonOp]

theorem filter_poly_number (cX : Int) (fm : FontMetrics) :
    (runway_number_ops cX fm).filter isPolygonOp = [] := by
  simp [runway_number_ops, isPolygonOp]

theorem filter_poly_ticks (cX : Int) :
    (tick_ops cX).filter isPolygonOp = [] := by
  simp [tick_ops, tick_offsets, isPolygonOp]

theorem filter_poly_footer (inp : LayoutInput) (fm : FontMetrics) :
    (footer_ops inp fm).filter isPolygonOp = [] := by
  simp [footer_ops, isPolygonOp]

theorem arrow_filter_self (t : Trig) (wd : Int) (ws : ℚ) (cX cY : Int) :
    (arrow_ops t wd ws cX cY).filter isPolygonOp = arrow_ops t wd ws cX cY := by
  unfold arrow_ops
  split_ifs <;> simp [isPolygonOp]

/-- C4 (amended): when the decoded wind speed is 0 the arrow block draws
nothing, the runway trapezoid is still drawn, the centerline dashes and
threshold ticks are still drawn, and the only polygon in the whole render
is the runway trapezoid. An unavailable direction string parses to the
sentinel 0 but does not by itself suppress the arrow. -/
theorem no_arrow_when_calm (inp : LayoutInput) (fm : FontMetrics) (t : Trig)
    (h : parse_wind_speed inp.decoded_wnspd = 0) :
    arrow_ops t (parse_wind_direction inp.decoded_wndir)
      (parse_wind_speed inp.decoded_wnspd) (inp.W / 2) 170 = [] ∧
    runway_polygon_op (inp.W / 2) ∈ layout_wind_ops inp fm t ∧
    (∀ op ∈ centerline_ops (inp.W / 2), op ∈ layout_wind_ops inp fm t) ∧
    (∀ op ∈ tick_ops (inp.W / 2), op ∈ layout_wind_ops inp fm t) ∧
    (layout_wind_ops inp fm t).filter isPolygonOp =
      [runway_polygon_op (inp.W / 2)] := by
  have harrow : arrow_ops t (parse_wind_direction inp.decoded_wndir)
      (parse_wind_speed inp.decoded_wnspd) (inp.W / 2) 170 = [] := by
    rw [h]
    simp [arrow_ops]
  refine ⟨harrow, ?_, ?_, ?_, ?_⟩
  · simp [layout_wind_ops]
  · intro op hop
    simp only [layout_wind_ops, List.mem_append]
    tauto
  · intro op hop
    simp only [layout_wind_ops, List.mem_append]
    tauto
  · simp only [layout_wind_ops, List.filter_append, filter_poly_header,
      filter_poly_wind_info, filter_poly_left, filter_poly_right,
      filter_poly_centerline, filter_poly_number, filter_poly_ticks,
      filter_poly_footer, harrow, List.filter_nil, List.nil_append,
      List.append_nil]
    simp [runway_polygon_op, isPolygonOp]

/-- Closed instance of C4 at the calm sample input. -/
theorem no_arrow_when_calm_witness :
    arrow_ops zero_trig (parse_wind_direction calm_input.decoded_wndir)
      (parse_wind_speed calm_input.decoded_wnspd) (calm_input.W / 2) 170 =
      [] ∧
    runway_polygon_op (calm_input.W / 2) ∈
      layout_wind_ops calm_input sample_metrics zero_trig :=
  ⟨(no_arrow_when_calm calm_input sample_metrics zero_trig rfl).1,
   (no_arrow_when_calm calm_input sample_metrics zero_trig rfl).2.1⟩

/-- A concrete decoded input whose wind direction is the unavailable
sentinel "VRB" while the speed is 10. -/
def vrb_input : LayoutInput :=
  ⟨400, 300, "KPDX", "VFR", "VRB", "10", "", [], [], "", "", "", "", "", 2,
   ""⟩

/-- C4 counterexample: with decoded direction "VRB" (not a digit string,
so the direction is unavailable and parses to 0) and decoded speed "10",
the arrow block still draws, and the rendered polygons are the arrow
polygons followed by the runway trapezoid, so an arrow polygon is drawn
even though the direction is unavailable. -/
theorem arrow_drawn_despite_na_direction :
    "VRB".data.all Char.isDigit = false ∧
    parse_wind_direction "VRB" = 0 ∧
    parse_wind_speed "10" = 10 ∧
    arrow_ops zero_trig (parse_wind_direction "VRB")
      (parse_wind_speed "10") (vrb_input.W / 2) 170 ≠ [] ∧
    (layout_wind_ops vrb_input sample_metrics zero_trig).filter isPolygonOp =
      arrow_ops zero_trig (parse_wind_direction "VRB")
        (parse_wind_speed "10") (vrb_input.W / 2) 170
      ++ [runway_polygon_op (vrb_input.W / 2)] := by
  refine ⟨rfl, rfl, rfl, ?_, ?_⟩
  · have hs : parse_wind_speed "10" = (10 : ℚ) := rfl
    rw [hs]
    simp only [arrow_ops]
    rw [if_pos (show (0 : ℚ) < 10 by norm_num)]
    exact List.cons_ne_nil _ _
  · simp only [layout_wind_ops, List.filter_append, filter_poly_header,
      filter_poly_wind_info, filter_poly_left, filter_poly_right,
      filter_poly_centerline, filter_poly_number, filter_poly_ticks,
      filter_poly_footer, arrow_filter_self, List.nil_append,
      List.append_nil]
    simp [vrb_input, runway_polygon_op, isPolygonOp]

end EpaperMetar
